import Mathlib

/-!
Verification of `src/docvault/lambda/app.py`.

The source module is (line 1 imports the modules json, boto3 and os):

  def handler(event, context):
      return .
          "statusCode": 200,
          "body": json.dumps(."message":"Lambda running with OCR container".)
      .

We embed the Python data values the handler manipulates as an inductive
type `PyValue`, embed `json.dumps` (with its default settings:
`ensure_ascii=True`, separators `", "` and `": "`) and `json.loads`
(restricted to the integer-numeral fragment, which is all the module
produces), and embed `handler` itself.  The handler never inspects its
arguments, so the embedding is polymorphic in the types of `event` and
`context`.
-/

/-- A Python value, as manipulated by the module: `None`, booleans,
integers, strings, lists and string-keyed dicts (insertion-ordered
association lists, as in Python 3.7+). -/
inductive PyValue where
  | none : PyValue
  | bool : Bool → PyValue
  | int : Int → PyValue
  | str : String → PyValue
  | list : List PyValue → PyValue
  | dict : List (String × PyValue) → PyValue
deriving Repr

/-- Hexadecimal digit character (lowercase), as CPython's
`json.encoder` emits in `\uXXXX` escapes. -/
def hexDigitChar (n : Nat) : Char :=
  if n < 10 then Char.ofNat (48 + n) else Char.ofNat (87 + n)

/-- Four-digit lowercase hexadecimal rendering of `n` (mod 2^16). -/
def hex4 (n : Nat) : String :=
  String.mk [hexDigitChar (n / 4096 % 16), hexDigitChar (n / 256 % 16),
             hexDigitChar (n / 16 % 16), hexDigitChar (n % 16)]

/-- Escape of one character inside a JSON string literal, following
CPython's `json.encoder.py_encode_basestring_ascii`: the two-character
escapes for quote, backslash and the usual control characters, `\uXXXX`
for other characters outside the printable-ASCII range `0x20`–`0x7e`
(with a surrogate pair above `0xffff`), and the character itself
otherwise. -/
def pyEscapeChar (c : Char) : String :=
  if c = Char.ofNat 34 then "\\\""
  else if c = Char.ofNat 92 then "\\\\"
  else if c = Char.ofNat 10 then "\\n"
  else if c = Char.ofNat 9 then "\\t"
  else if c = Char.ofNat 13 then "\\r"
  else if c = Char.ofNat 8 then "\\b"
  else if c = Char.ofNat 12 then "\\f"
  else if c.toNat < 32 then "\\u" ++ hex4 c.toNat
  else if c.toNat < 127 then String.mk [c]
  else if c.toNat < 65536 then "\\u" ++ hex4 c.toNat
  else
    "\\u" ++ hex4 (55296 + (c.toNat - 65536) / 1024) ++
    "\\u" ++ hex4 (56320 + (c.toNat - 65536) % 1024)

/-- JSON string literal for `s`: a double-quoted, escaped rendering. -/
def pyEscapeString (s : String) : String :=
  "\"" ++ String.join (s.data.map pyEscapeChar) ++ "\""

mutual

/-- Embedding of `json.dumps` with CPython's default settings: item
separator `", "`, key separator `": "`, `ensure_ascii=True`. -/
def jsonDumps : PyValue → String
  | PyValue.none => "null"
  | PyValue.bool true => "true"
  | PyValue.bool false => "false"
  | PyValue.int n => toString n
  | PyValue.str s => pyEscapeString s
  | PyValue.list xs => "[" ++ jsonDumpsItems xs ++ "]"
  | PyValue.dict kvs => "\x7b" ++ jsonDumpsMembers kvs ++ "\x7d"

/-- The `", "`-separated renderings of the elements of a JSON array. -/
def jsonDumpsItems : List PyValue → String
  | [] => ""
  | [x] => jsonDumps x
  | x :: y :: rest => jsonDumps x ++ ", " ++ jsonDumpsItems (y :: rest)

/-- The `", "`-separated `key: value` renderings of the members of a
JSON object. -/
def jsonDumpsMembers : List (String × PyValue) → String
  | [] => ""
  | [(k, v)] => pyEscapeString k ++ ": " ++ jsonDumps v
  | (k, v) :: m :: rest =>
      pyEscapeString k ++ ": " ++ jsonDumps v ++ ", " ++ jsonDumpsMembers (m :: rest)

end

/-- Embedding of `handler` from `src/docvault/lambda/app.py`, lines 3–7.
The Python function binds `event` and `context` but never reads them, so
the embedding is polymorphic in their types; the body is the literal
dict the source returns. -/
def handler {α β : Type} (event : α) (context : β) : PyValue :=
  PyValue.dict
    [("statusCode", PyValue.int 200),
     ("body", PyValue.str (jsonDumps
        (PyValue.dict [("message", PyValue.str "Lambda running with OCR container")])))]

/-- First-occurrence key lookup in an association list. -/
def lookupEntry : List (String × PyValue) → String → Option PyValue
  | [], _ => Option.none
  | (k, v) :: rest, key => if k = key then Option.some v else lookupEntry rest key

/-- Key lookup on a Python dict, `Option.none` on a missing key or a
non-dict value. -/
def PyValue.lookup : PyValue → String → Option PyValue
  | PyValue.dict kvs, key => lookupEntry kvs key
  | _, _ => Option.none

/-- The ordered key list of a Python dict (empty for non-dicts). -/
def PyValue.keys : PyValue → List String
  | PyValue.dict kvs => kvs.map Prod.fst
  | _ => []

/-- JSON whitespace. -/
def isJsonWs (c : Char) : Bool :=
  c = ' ' || c = Char.ofNat 10 || c = Char.ofNat 9 || c = Char.ofNat 13

/-- Drop leading JSON whitespace. -/
def skipWs : List Char → List Char
  | [] => []
  | c :: cs => if isJsonWs c then skipWs cs else c :: cs

/-- Value of a hexadecimal digit character. -/
def hexVal (c : Char) : Option Nat :=
  if 48 ≤ c.toNat ∧ c.toNat ≤ 57 then Option.some (c.toNat - 48)
  else if 97 ≤ c.toNat ∧ c.toNat ≤ 102 then Option.some (c.toNat - 87)
  else if 65 ≤ c.toNat ∧ c.toNat ≤ 70 then Option.some (c.toNat - 55)
  else Option.none

/-- Parse the remainder of a JSON string literal (the opening quote
already consumed), decoding the standard escapes; returns the decoded
characters and the input following the closing quote. -/
def parseStringRest : Nat → List Char → Option (List Char × List Char)
  | 0, _ => Option.none
  | _ + 1, [] => Option.none
  | fuel + 1, c :: cs =>
      if c = Char.ofNat 34 then Option.some ([], cs)
      else if c = Char.ofNat 92 then
        match cs with
        | [] => Option.none
        | e :: cs' =>
            if e = Char.ofNat 34 ∨ e = Char.ofNat 92 ∨ e = '/' then
              (parseStringRest fuel cs').map (fun p => (e :: p.1, p.2))
            else if e = 'n' then
              (parseStringRest fuel cs').map (fun p => (Char.ofNat 10 :: p.1, p.2))
            else if e = 't' then
              (parseStringRest fuel cs').map (fun p => (Char.ofNat 9 :: p.1, p.2))
            else if e = 'r' then
              (parseStringRest fuel cs').map (fun p => (Char.ofNat 13 :: p.1, p.2))
            else if e = 'b' then
              (parseStringRest fuel cs').map (fun p => (Char.ofNat 8 :: p.1, p.2))
            else if e = 'f' then
              (parseStringRest fuel cs').map (fun p => (Char.ofNat 12 :: p.1, p.2))
            else if e = 'u' then
              match cs' with
              | h1 :: h2 :: h3 :: h4 :: cs'' =>
                  match hexVal h1, hexVal h2, hexVal h3, hexVal h4 with
                  | Option.some a, Option.some b, Option.some c3, Option.some d =>
                      (parseStringRest fuel cs'').map
                        (fun p => (Char.ofNat (a * 4096 + b * 256 + c3 * 16 + d) :: p.1, p.2))
                  | _, _, _, _ => Option.none
              | _ => Option.none
            else Option.none
      else (parseStringRest fuel cs).map (fun p => (c :: p.1, p.2))

/-- Parse a JSON integer numeral (optional minus sign, then digits).
The module never produces fractional or exponent numerals, so the
parser model covers the integer fragment only. -/
def parseNumber (cs : List Char) : Option (PyValue × List Char) :=
  match cs with
  | '-' :: rest =>
      match rest.span Char.isDigit with
      | ([], _) => Option.none
      | (ds, rest') =>
          Option.some (PyValue.int (-(Int.ofNat (String.toNat! (String.mk ds)))), rest')
  | _ =>
      match cs.span Char.isDigit with
      | ([], _) => Option.none
      | (ds, rest') =>
          Option.some (PyValue.int (Int.ofNat (String.toNat! (String.mk ds))), rest')

mutual

/-- Parse one JSON value from the input (leading whitespace allowed),
returning the value and the remaining input. -/
def parseValue : Nat → List Char → Option (PyValue × List Char)
  | 0, _ => Option.none
  | fuel + 1, cs =>
      match skipWs cs with
      | 'n' :: 'u' :: 'l' :: 'l' :: rest => Option.some (PyValue.none, rest)
      | 't' :: 'r' :: 'u' :: 'e' :: rest => Option.some (PyValue.bool true, rest)
      | 'f' :: 'a' :: 'l' :: 's' :: 'e' :: rest => Option.some (PyValue.bool false, rest)
      | '\x22' :: rest =>
          (parseStringRest fuel rest).map (fun p => (PyValue.str (String.mk p.1), p.2))
      | '[' :: rest =>
          (match skipWs rest with
           | ']' :: rest' => Option.some (PyValue.list [], rest')
           | _ => (parseItems fuel rest).map (fun p => (PyValue.list p.1, p.2)))
      | '\x7b' :: rest =>
          (match skipWs rest with
           | '\x7d' :: rest' => Option.some (PyValue.dict [], rest')
           | _ => (parseMembers fuel rest).map (fun p => (PyValue.dict p.1, p.2)))
      | cs' => parseNumber cs'

/-- Parse the comma-separated elements of a non-empty JSON array,
including the closing bracket. -/
def parseItems : Nat → List Char → Option (List PyValue × List Char)
  | 0, _ => Option.none
  | fuel + 1, cs =>
      match parseValue fuel cs with
      | Option.none => Option.none
      | Option.some (v, rest) =>
          match skipWs rest with
          | ',' :: rest' =>
              (parseItems fuel rest').map (fun p => (v :: p.1, p.2))
          | ']' :: rest' => Option.some ([v], rest')
          | _ => Option.none

/-- Parse the comma-separated members of a non-empty JSON object,
including the closing brace. -/
def parseMembers : Nat → List Char → Option (List (String × PyValue) × List Char)
  | 0, _ => Option.none
  | fuel + 1, cs =>
      match skipWs cs with
      | '\x22' :: rest =>
          (match parseStringRest fuel rest with
           | Option.none => Option.none
           | Option.some (kcs, rest') =>
               match skipWs rest' with
               | ':' :: rest'' =>
                   (match parseValue fuel rest'' with
                    | Option.none => Option.none
                    | Option.some (v, rest3) =>
                        match skipWs rest3 with
                        | ',' :: rest4 =>
                            (parseMembers fuel rest4).map
                              (fun p => ((String.mk kcs, v) :: p.1, p.2))
                        | '\x7d' :: rest4 => Option.some ([(String.mk kcs, v)], rest4)
                        | _ => Option.none)
               | _ => Option.none)
      | _ => Option.none

end

/-- Embedding of `json.loads` (on the fragment above): parse one value,
then require only whitespace to remain. -/
def jsonLoads (s : String) : Option PyValue :=
  match parseValue (2 * s.length + 8) s.data with
  | Option.some (v, rest) => if (skipWs rest).isEmpty then Option.some v else Option.none
  | Option.none => Option.none

/-- The observable outside world of an invocation: the process
environment, the file system, and a log of network requests.  The body
of `handler` contains no statement that touches any of these, so its
state-passing translation `handlerW` returns the world unchanged. -/
structure World where
  env : List (String × String)
  files : List (String × String)
  network : List String
deriving Repr

/-- The complete observable outcome of one invocation under the
state-passing translation: the returned value, the (possibly mutated)
argument objects as the caller sees them afterwards, and the final
world. -/
structure EffResult where
  ret : PyValue
  eventAfter : PyValue
  contextAfter : PyValue
  world : World
deriving Repr

/-- State-passing translation of `handler`: the body is a single
`return` of a literal, so the arguments and the world pass through
untouched. -/
def handlerW (event context : PyValue) (w : World) : EffResult :=
  ⟨handler event context, event, context, w⟩

/-- Exception-explicit translation of `handler`: the body contains no
fallible operation (no attribute access, no key access, no call that can
raise), so the translation always returns `Except.ok`. -/
def handlerE {α β : Type} (event : α) (context : β) : Except String PyValue :=
  Except.ok (handler event context)

/-- The module-level imports of `app.py`, line 1, in source order. -/
def appModuleImports : List String := ["json", "boto3", "os"]

/-- Modelled Python import semantics for line 1: executing the module
runs each `import` in order, and the load succeeds iff every imported
module is available in the environment. -/
def importsSatisfied (available : List String) : Bool :=
  appModuleImports.all (fun m => available.contains m)

/-- Modelled module load: the result of loading `app.py` in an
environment offering `available` modules — the handler when every one
of the imports succeeds, `Option.none` (an `ImportError` before
`handler` is ever defined) otherwise. -/
def loadAppModule (available : List String) : Option (PyValue → PyValue → PyValue) :=
  if importsSatisfied available then Option.some (fun e c => handler e c)
  else Option.none

/-- C1: for every value of `event` and every value of `context`
(whatever their types, hence including empty, malformed, or
absent-field inputs), `handler` returns a response whose `statusCode`
field is the integer 200 and whose `body` field is the JSON-encoded
text of the one-key message object. -/
theorem handler_returns_200_with_fixed_body {α β : Type} (event : α) (context : β) :
    (handler event context).lookup "statusCode" = Option.some (PyValue.int 200) ∧
    (handler event context).lookup "body" =
      Option.some (PyValue.str "\x7b\"message\": \"Lambda running with OCR container\"\x7d") :=
  ⟨rfl, rfl⟩

/-- C2: `handler` is total — under the exception-explicit translation
`handlerE`, every invocation returns `Except.ok` (never a raised
error) with a response whose status is 200. -/
theorem handler_total_never_raises {α β : Type} (event : α) (context : β) :
    ∃ r : PyValue, handlerE event context = Except.ok r ∧
      r.lookup "statusCode" = Option.some (PyValue.int 200) :=
  ⟨handler event context, rfl, rfl⟩

/-- C3: `handler` is deterministic and input-independent — any two
invocations, with arbitrary (possibly different) events, contexts and
worlds (environment, files, network), return equal responses; the
same-input case (idempotence) is the instance `e₂ = e₁`, `c₂ = c₁`. -/
theorem handler_deterministic {α β γ δ : Type} (e₁ : α) (c₁ : β) (e₂ : γ) (c₂ : δ) :
    handler e₁ c₁ = handler e₂ c₂ ∧
    ∀ (pe pc pe' pc' : PyValue) (w w' : World),
      (handlerW pe pc w).ret = (handlerW pe' pc' w').ret :=
  ⟨rfl, fun _ _ _ _ _ _ => rfl⟩

/-- C4: for every event and context, the `body` field of the response
is a string which `jsonLoads` parses successfully, and the parse yields
exactly the singleton object mapping `message` to the literal message
string — the serialize-then-parse round trip recovers that mapping. -/
theorem handler_body_json_roundtrip {α β : Type} (event : α) (context : β) :
    ∃ s : String, (handler event context).lookup "body" = Option.some (PyValue.str s) ∧
      jsonLoads s =
        Option.some (PyValue.dict [("message", PyValue.str "Lambda running with OCR container")]) :=
  ⟨"\x7b\"message\": \"Lambda running with OCR container\"\x7d", rfl, rfl⟩

/-- C5: on the concrete input `event = .empty dict.` and
`context = .empty dict.`, `handler` returns exactly the two-field record
with `statusCode = 200` and the serialized body string. -/
theorem handler_on_empty_inputs :
    handler (PyValue.dict []) (PyValue.dict []) =
      PyValue.dict
        [("statusCode", PyValue.int 200),
         ("body", PyValue.str "\x7b\"message\": \"Lambda running with OCR container\"\x7d")] :=
  rfl

/-- C6: for every event and context, the returned record has exactly
the two top-level fields `statusCode` and `body`, in that order, and no
others. -/
theorem handler_exactly_two_fields {α β : Type} (event : α) (context : β) :
    (handler event context).keys = ["statusCode", "body"] :=
  rfl

/-- C7: invariant of every returned response — `body` is a string node
holding valid JSON text (it parses), not a raw structure, and
`statusCode` sits outside that serialized blob: it is a separate
top-level integer field, and the parsed blob itself contains no
`statusCode` key. -/
theorem handler_body_preserialized_invariant {α β : Type} (event : α) (context : β) :
    ∃ (s : String) (j : PyValue),
      (handler event context).lookup "body" = Option.some (PyValue.str s) ∧
      jsonLoads s = Option.some j ∧
      j.lookup "statusCode" = Option.none ∧
      (handler event context).lookup "statusCode" = Option.some (PyValue.int 200) :=
  ⟨"\x7b\"message\": \"Lambda running with OCR container\"\x7d",
   PyValue.dict [("message", PyValue.str "Lambda running with OCR container")],
   rfl, rfl, rfl, rfl⟩

/-- C8: `handler` has no side effects — under the state-passing
translation `handlerW`, every invocation leaves the world (environment
variables, files, network log) unchanged, returns its `event` and
`context` argument objects unmutated, and produces a result that does
not depend on the world at all. -/
theorem handler_no_side_effects (event context : PyValue) (w : World) :
    (handlerW event context w).world = w ∧
    (handlerW event context w).eventAfter = event ∧
    (handlerW event context w).contextAfter = context ∧
    ∀ w' : World, (handlerW event context w).ret = (handlerW event context w').ret :=
  ⟨rfl, rfl, rfl, fun _ => rfl⟩

/-- C9: `handler` never evaluates any attribute, key, or content of its
arguments — it is polymorphic over the types of `event` and `context`
(integers, strings, `None`, even functions), and for arguments of any
types whatsoever it returns the same successful response as on the
canonical `None` inputs. -/
theorem handler_ignores_argument_types {α β : Type} (event : α) (context : β) :
    handler event context = handler PyValue.none PyValue.none ∧
    (handler event context).lookup "statusCode" = Option.some (PyValue.int 200) :=
  ⟨rfl, rfl⟩

/-- C10: the module imports `json`, `boto3` and `os` before defining
`handler`, so in an environment where `boto3` is not importable the
module load fails and `handler` is never defined. -/
theorem boto3_required_for_module_load (available : List String)
    (h : available.contains "boto3" = false) :
    loadAppModule available = Option.none := by
  have hsat : importsSatisfied available = false := by
    simp only [importsSatisfied, appModuleImports, List.all_cons, List.all_nil, h,
      Bool.false_and, Bool.and_false, Bool.and_true]
  simp [loadAppModule, hsat]

/-- Witness for C10: a concrete environment offering only `json` and
`os` lacks `boto3`, and loading the module there yields no handler. -/
theorem boto3_required_for_module_load_witness :
    (["json", "os"] : List String).contains "boto3" = false ∧
    loadAppModule ["json", "os"] = Option.none :=
  ⟨by decide, boto3_required_for_module_load ["json", "os"] (by decide)⟩
